import Mathlib

/-
Shallow embedding of kube-fencing's node controller
(src/pkg/controller/node/node_controller.go).

Go string-keyed annotation maps are modelled as functions
String → Option String (a Go map lookup `m[k]` with the `, ok` idiom is
`m k : Option String`; the plain index form defaults to "" for a missing
key, see annGetD).  The reconciler's side effects (merge patches on the
node's annotations, job create/delete, the detached timeout goroutine)
are recorded as an explicit effect list; cluster reads (node, pod
template, existing job) are inputs, each a three-way outcome mirroring
client.Get's nil error / IsNotFound / other error.  Writes are modelled
as succeeding, so the only error outcome a pass can report comes from a
read, exactly as in the happy-write paths of the source.
-/

abbrev AnnMap := String → Option String

def annEmpty : AnnMap := fun _ => none

def annInsert (m : AnnMap) (k v : String) : AnnMap :=
  fun q => if q = k then some v else m q

def annErase (m : AnnMap) (k : String) : AnnMap :=
  fun q => if q = k then none else m q

/-- Go's `m[k]` on a string map: "" when the key is absent. -/
def annGetD (m : AnnMap) (k : String) : String :=
  (m k).getD ""

/-- Right-biased union: `for k, v := range override { base[k] = v }`. -/
def annUnion (base override : AnnMap) : AnnMap :=
  fun q => match override q with
    | some v => some v
    | none => base q

/-- Build an AnnMap from a literal association list (for concrete tests). -/
def annsOf (l : List (String × String)) : AnnMap :=
  l.foldl (fun m kv => annInsert m kv.1 kv.2) annEmpty

/-- strconv.Atoi: optional sign then at least one digit; none on failure. -/
def goAtoi (s : String) : Option Int :=
  let cs := s.toList
  let signed : Bool × List Char :=
    match cs with
    | '-' :: rest => (true, rest)
    | '+' :: rest => (false, rest)
    | _ => (false, cs)
  let ds := signed.2
  if ds.isEmpty ∨ ¬ (ds.all fun c => '0' ≤ c ∧ c ≤ '9') then none
  else
    let n : Nat := ds.foldl (fun n c => n * 10 + (c.toNat - '0'.toNat)) 0
    some (if signed.1 then -(n : Int) else (n : Int))

/-- strconv.ParseInt with the error discarded: 0 when unparsable. -/
def goParseIntD (s : String) : Int :=
  (goAtoi s).getD 0

structure NodeCondition where
  type : String
  status : String
  reason : String
deriving DecidableEq

structure KNode where
  name : String
  annotations : AnnMap
  conditions : List NodeCondition

structure PodSpec where
  name : String
  annotations : AnnMap

structure PodTemplate where
  annotations : AnnMap
  template : PodSpec

/-- The zero value a fresh &v1.PodTemplate{} carries. -/
def emptyPodTemplate : PodTemplate :=
  { annotations := annEmpty, template := { name := "", annotations := annEmpty } }

structure JobCondition where
  type : String
  status : String
deriving DecidableEq

structure Job where
  name : String
  ns : String
  labels : AnnMap
  annotations : AnnMap
  ownerName : String
  template : PodSpec
  statusConditions : List JobCondition

/-- Outcome of a client.Get call: nil error, IsNotFound, or another error. -/
inductive GetResult (α : Type) where
  | found : α → GetResult α
  | notFound : GetResult α
  | otherError : GetResult α

/-- GetNodeCondition: first condition of the given type, or none. -/
def GetNodeCondition (conds : List NodeCondition) (t : String) : Option NodeCondition :=
  conds.find? fun c => c.type == t

/-- GetJobCondition: first condition of the given type, or none. -/
def GetJobCondition (conds : List JobCondition) (t : String) : Option JobCondition :=
  conds.find? fun c => c.type == t

/-- Go's `if v, ok := src[k]; ok { dst[k] = v }`: copy key k from src into
dst when src defines it. -/
def annCopyFrom (dst src : AnnMap) (k : String) : AnnMap :=
  match src k with
  | some v => annInsert dst k v
  | none => dst

/-- The keys of the default annotations map in newJobForNode. -/
def fixedKeys : List String := ["fencing/mode", "fencing/template", "fencing/timeout"]

def defaultAnnotations : AnnMap :=
  annsOf [("fencing/mode", "flush"), ("fencing/template", "fencing"), ("fencing/timeout", "0")]

/-- The loop `for k := range annotations` in newJobForNode: for each of the
three default keys, the template's value overrides the default and the
node's value overrides both. -/
def jobFixedAnns (node : KNode) (pt : PodTemplate) : AnnMap :=
  fixedKeys.foldl
    (fun m k => annCopyFrom (annCopyFrom m pt.annotations k) node.annotations k)
    defaultAnnotations

/-- The if/else-if/else chain forcing annotations["fencing/id"]: node's
fencing/id annotation, else the template's, else the node name. -/
def jobForcedIdAnns (node : KNode) (pt : PodTemplate) (m : AnnMap) : AnnMap :=
  match node.annotations "fencing/id" with
  | some id => annInsert m "fencing/id" id
  | none =>
    match pt.annotations "fencing/id" with
    | some id => annInsert m "fencing/id" id
    | none => annInsert m "fencing/id" node.name

/-- The full annotation map newJobForNode puts on the Job: fixed-key merge,
then the pod spec's annotations, then the forced fencing/node and
fencing/id keys, then the after-hook copies (node first, template last). -/
def jobAnns (node : KNode) (pt : PodTemplate) : AnnMap :=
  annCopyFrom
    (annCopyFrom
      (jobForcedIdAnns node pt
        (annInsert (annUnion (jobFixedAnns node pt) pt.template.annotations)
          "fencing/node" node.name))
      node.annotations "fencing/after-hook")
    pt.annotations "fencing/after-hook"

/-- newJobForNode: builds the fencing Job for a node from the pod template. -/
def newJobForNode (ns : String) (node : KNode) (podTemplate : PodTemplate) : Job :=
  let labels := annsOf [("node", node.name), ("fencing", "fence")]
  let pod := podTemplate.template
  let anns := jobAnns node podTemplate
  let prefixName := if pod.name = "" then "fence" else pod.name
  { name := prefixName ++ "-" ++ node.name
    ns := ns
    labels := labels
    annotations := anns
    ownerName := node.name
    template := { pod with annotations := anns }
    statusConditions := [] }

/-- One observable side effect of a reconciliation pass. -/
inductive Effect where
  | patchAnnotations : List (String × Option String) → Effect
  | deleteJob : String → Effect
  | createJob : Job → Effect
  | armTimer : Int → Effect

/-- The merge patch sent when a node recovers (both keys removed). -/
def recoveredPatch : Effect :=
  Effect.patchAnnotations [("fencing/state", none), ("fencing/timestamp", none)]

/-- The merge patch that moves the node to state started. -/
def startedPatch : Effect :=
  Effect.patchAnnotations [("fencing/state", some "started"), ("fencing/timestamp", none)]

/-- The merge patch that arms the grace period at time `now`. -/
def pendingPatch (now : Int) : Effect :=
  Effect.patchAnnotations
    [("fencing/state", some "pending"), ("fencing/timestamp", some (toString now))]

/-- Inputs of one reconciliation pass: the three cluster reads, the current
Unix time and the configured namespace. -/
structure Cluster where
  node : GetResult KNode
  template : GetResult PodTemplate
  job : GetResult Job
  now : Int
  ns : String

/-- Result of a pass: the ordered side effects and whether a non-nil error
was returned (which makes the host queue retry). -/
structure ReconcileResult where
  effects : List Effect
  isErr : Bool

/-- The part of Reconcile after the pod-template fetch, with `effects0` the
effects already issued (the recovery patch, when it happened) and
`fencingState` the local state variable at that point. -/
def reconcileCore (cl : Cluster) (node : KNode)
    (effects0 : List Effect) (fencingState : String)
    (podTemplate : PodTemplate) : ReconcileResult :=
  let job := newJobForNode cl.ns node podTemplate
  if fencingState = "recovered" then
    match cl.job with
    | .found _ => ⟨effects0 ++ [Effect.deleteJob job.name], false⟩
    | _ => ⟨effects0, false⟩
  else if annGetD node.annotations "fencing/enabled" ≠ "true" then
    ⟨effects0, false⟩
  else if fencingState ≠ "started" then
    let timeoutStr :=
      (node.annotations "fencing/timeout").getD
        ((podTemplate.annotations "fencing/timeout").getD "0")
    match goAtoi timeoutStr with
    | none => ⟨effects0, false⟩
    | some timeout =>
      if timeout > 0 then
        let ts0 := goParseIntD (annGetD node.annotations "fencing/timestamp")
        let arm : List Effect × Int :=
          if fencingState = "" ∧ ts0 = 0 then ([pendingPatch cl.now], cl.now)
          else ([], ts0)
        let remainTime := timeout - (cl.now - arm.2)
        if remainTime > 0 then
          ⟨effects0 ++ arm.1 ++ [Effect.armTimer remainTime], false⟩
        else
          ⟨effects0 ++ arm.1 ++ [startedPatch], false⟩
      else
        ⟨effects0 ++ [startedPatch], false⟩
  else
    match cl.job with
    | .otherError => ⟨effects0, true⟩
    | .notFound => ⟨effects0 ++ [Effect.createJob job], false⟩
    | .found fj =>
      match GetJobCondition fj.statusConditions "Complete",
            GetJobCondition fj.statusConditions "Failed" with
      | none, none => ⟨effects0, false⟩
      | _, _ => ⟨effects0 ++ [Effect.deleteJob job.name, Effect.createJob job], false⟩

/-- One reconciliation pass over a node, mirroring Reconcile in
node_controller.go line by line. -/
def Reconcile (cl : Cluster) : ReconcileResult :=
  match cl.node with
  | .notFound => ⟨[], false⟩
  | .otherError => ⟨[], true⟩
  | .found node =>
    match GetNodeCondition node.conditions "Ready" with
    | none => ⟨[], false⟩
    | some c =>
      let s0 := annGetD node.annotations "fencing/state"
      let pre : List Effect × String :=
        if c.status = "True" ∧ (s0 = "pending" ∨ s0 = "fenced") then
          ([recoveredPatch], "recovered")
        else ([], s0)
      if pre.2 = "fenced" then ⟨pre.1, false⟩
      else if pre.2 ≠ "recovered" ∧ c.reason ≠ "NodeStatusUnknown" then ⟨pre.1, false⟩
      else
        match cl.template with
        | .notFound => ⟨pre.1, false⟩
        | .found t => reconcileCore cl node pre.1 pre.2 t
        | .otherError => reconcileCore cl node pre.1 pre.2 emptyPodTemplate

/-- Replay a merge patch on an annotation map: some sets, none removes. -/
def applyMergePatch (m : AnnMap) (patch : List (String × Option String)) : AnnMap :=
  patch.foldl (fun acc kv =>
    match kv.2 with
    | some v => annInsert acc kv.1 v
    | none => annErase acc kv.1) m

/-- The node's annotations after the patch effects of a pass are applied. -/
def applyEffects (m : AnnMap) (effs : List Effect) : AnnMap :=
  effs.foldl (fun acc e =>
    match e with
    | Effect.patchAnnotations p => applyMergePatch acc p
    | _ => acc) m

/-- Left-biased choice on optional annotation values (used to state the
override-precedence claims). -/
def oElse (a b : Option String) : Option String :=
  match a with
  | some v => some v
  | none => b

/- Concrete fixtures used by counterexamples and witnesses. -/

def condNotReady : NodeCondition :=
  { type := "Ready", status := "Unknown", reason := "NodeStatusUnknown" }

def condReadyTrue : NodeCondition :=
  { type := "Ready", status := "True", reason := "KubeletReady" }

def emptyPodSpec : PodSpec := { name := "", annotations := annEmpty }

def nodeC1 : KNode :=
  { name := "node1"
    annotations := annsOf [("fencing/state", "fenced")]
    conditions := [condReadyTrue] }

def clusterC1 : Cluster :=
  { node := .found nodeC1, template := .notFound, job := .notFound, now := 100, ns := "fencing" }

def nodeC1w : KNode :=
  { name := "node1"
    annotations := annsOf [("fencing/state", "fenced")]
    conditions := [condNotReady] }

def clusterC1w : Cluster :=
  { node := .found nodeC1w, template := .notFound, job := .notFound, now := 100, ns := "fencing" }

def nodeC2 : KNode :=
  { name := "node2"
    annotations := annsOf [("fencing/enabled", "true")]
    conditions := [condNotReady] }

def clusterC2 : Cluster :=
  { node := .found nodeC2, template := .found emptyPodTemplate, job := .notFound, now := 100, ns := "fencing" }

def nodeC2b : KNode :=
  { name := "node2"
    annotations := annsOf [("fencing/enabled", "true"), ("fencing/state", "started")]
    conditions := [condNotReady] }

def clusterC2b : Cluster :=
  { node := .found nodeC2b, template := .found emptyPodTemplate, job := .notFound, now := 101, ns := "fencing" }

/-- An existing fencing job with no completion condition yet. -/
def runningJob : Job :=
  { name := "fence-node3", ns := "fencing", labels := annEmpty, annotations := annEmpty
    ownerName := "node3", template := emptyPodSpec, statusConditions := [] }

/-- An existing fencing job that reported Complete. -/
def doneJob : Job :=
  { runningJob with statusConditions := [{ type := "Complete", status := "True" }] }

def nodeC3 : KNode :=
  { name := "node3"
    annotations := annsOf [("fencing/state", "started")]
    conditions := [condReadyTrue] }

def clusterC3 : Cluster :=
  { node := .found nodeC3, template := .found emptyPodTemplate, job := .found runningJob, now := 100, ns := "fencing" }

def nodeC3w : KNode :=
  { name := "node3"
    annotations := annsOf [("fencing/state", "pending"), ("fencing/timestamp", "50")]
    conditions := [condReadyTrue] }

def clusterC3w : Cluster :=
  { node := .found nodeC3w, template := .found emptyPodTemplate, job := .found runningJob, now := 100, ns := "fencing" }

def nodeC5 : KNode :=
  { name := "node5"
    annotations := annsOf [("fencing/state", "started"), ("fencing/enabled", "true")]
    conditions := [condNotReady] }

def clusterC5run : Cluster :=
  { node := .found nodeC5, template := .found emptyPodTemplate, job := .found runningJob, now := 100, ns := "fencing" }

def clusterC5done : Cluster :=
  { node := .found nodeC5, template := .found emptyPodTemplate, job := .found doneJob, now := 100, ns := "fencing" }

def nodeC6a : KNode :=
  { name := "node6"
    annotations := annsOf [("fencing/enabled", "true"), ("fencing/timeout", "60")]
    conditions := [condNotReady] }

def clusterC6a : Cluster :=
  { node := .found nodeC6a, template := .found emptyPodTemplate, job := .notFound, now := 1000, ns := "fencing" }

def nodeC6b : KNode :=
  { name := "node6"
    annotations := annsOf
      [("fencing/enabled", "true"), ("fencing/timeout", "60"),
       ("fencing/state", "pending"), ("fencing/timestamp", "1000")]
    conditions := [condNotReady] }

def clusterC6b : Cluster :=
  { node := .found nodeC6b, template := .found emptyPodTemplate, job := .notFound, now := 1030, ns := "fencing" }

def clusterC6c : Cluster :=
  { node := .found nodeC6b, template := .found emptyPodTemplate, job := .notFound, now := 1060, ns := "fencing" }

def nodeC8 : KNode :=
  { name := "node8"
    annotations := annsOf [("fencing/after-hook", "nodeHook")]
    conditions := [condNotReady] }

def templateC8 : PodTemplate :=
  { annotations := annsOf [("fencing/after-hook", "tmplHook")], template := emptyPodSpec }

def nodeC9 : KNode :=
  { name := "node9"
    annotations := annsOf [("fencing/enabled", "true"), ("fencing/timeout", "sixty")]
    conditions := [condNotReady] }

def clusterC9 : Cluster :=
  { node := .found nodeC9, template := .found emptyPodTemplate, job := .notFound, now := 100, ns := "fencing" }

def nodeC10 : KNode :=
  { name := "node10"
    annotations := annsOf [("fencing/state", "started"), ("fencing/enabled", "true")]
    conditions := [condNotReady] }

def clusterC10 : Cluster :=
  { node := .found nodeC10, template := .otherError, job := .notFound, now := 100, ns := "fencing" }

/- Helper lemmas about the annotation-map operations. -/

theorem annInsert_self (m : AnnMap) (k v : String) : annInsert m k v k = some v := by
  simp [annInsert]

theorem annInsert_ne (m : AnnMap) (k v q : String) (h : q ≠ k) : annInsert m k v q = m q := by
  simp [annInsert, h]

theorem annErase_self (m : AnnMap) (k : String) : annErase m k k = none := by
  simp [annErase]

theorem annErase_ne (m : AnnMap) (k q : String) (h : q ≠ k) : annErase m k q = m q := by
  simp [annErase, h]

theorem annUnion_at (base override : AnnMap) (q : String) :
    annUnion base override q = oElse (override q) (base q) := by
  cases h : override q <;> simp [annUnion, oElse, h]

theorem annCopyFrom_self (dst src : AnnMap) (k : String) :
    annCopyFrom dst src k k = oElse (src k) (dst k) := by
  cases h : src k <;> simp [annCopyFrom, oElse, h, annInsert_self]

theorem annCopyFrom_ne (dst src : AnnMap) (k q : String) (h : q ≠ k) :
    annCopyFrom dst src k q = dst q := by
  cases hs : src k <;> simp [annCopyFrom, hs, annInsert_ne _ _ _ _ h]

theorem jobForcedIdAnns_self (node : KNode) (pt : PodTemplate) (m : AnnMap) :
    jobForcedIdAnns node pt m "fencing/id"
      = oElse (node.annotations "fencing/id")
          (oElse (pt.annotations "fencing/id") (some node.name)) := by
  cases h1 : node.annotations "fencing/id" <;>
    cases h2 : pt.annotations "fencing/id" <;>
      simp [jobForcedIdAnns, h1, h2, oElse, annInsert_self]

theorem jobForcedIdAnns_ne (node : KNode) (pt : PodTemplate) (m : AnnMap) (q : String)
    (h : q ≠ "fencing/id") : jobForcedIdAnns node pt m q = m q := by
  cases h1 : node.annotations "fencing/id" <;>
    cases h2 : pt.annotations "fencing/id" <;>
      simp [jobForcedIdAnns, h1, h2, annInsert_ne _ _ _ _ h]

/-- C1 counterexample: a node whose fencing/state annotation is "fenced"
but whose Ready condition has status True does get a side effect in one
pass: the recovery merge patch is issued and the fencing/state annotation
is cleared, so the claim's "regardless of the node's readiness status"
is false. -/
theorem C1_counterexample :
    (Reconcile clusterC1).effects = [recoveredPatch]
    ∧ applyEffects nodeC1.annotations (Reconcile clusterC1).effects "fencing/state" = none
    ∧ nodeC1.annotations "fencing/state" = some "fenced" :=
  ⟨rfl, rfl, rfl⟩

/-- C1 (amended): for every node whose persisted fencing/state annotation
is "fenced" and whose Ready condition — when present — does not have
status True, one reconciliation pass performs no side effects and returns
no error, regardless of the readiness reason or any other annotation. -/
theorem C1_fenced_no_effects (cl : Cluster) (node : KNode)
    (hnode : cl.node = .found node)
    (hstate : node.annotations "fencing/state" = some "fenced")
    (hready : ∀ c, GetNodeCondition node.conditions "Ready" = some c → c.status ≠ "True") :
    Reconcile cl = ⟨[], false⟩ := by
  cases hc : GetNodeCondition node.conditions "Ready" with
  | none => simp [Reconcile, hnode, hc]
  | some c =>
    have hcs := hready c hc
    simp [Reconcile, hnode, hc, annGetD, hstate, hcs]

/-- C1 witness: the amended theorem applied to a concrete fenced node whose
Ready condition has status Unknown. -/
theorem C1_witness : Reconcile clusterC1w = ⟨[], false⟩ :=
  C1_fenced_no_effects clusterC1w nodeC1w rfl rfl
    (fun c hc => by
      rw [show GetNodeCondition nodeC1w.conditions "Ready" = some condNotReady from rfl] at hc
      cases hc
      decide)

theorem fence_dash_append (s : String) : "fence" ++ "-" ++ s = "fence-" ++ s := by
  apply String.ext
  simp [String.data_append]

theorem jobFixedAnns_at (node : KNode) (pt : PodTemplate) (k : String)
    (hk : k = "fencing/mode" ∨ k = "fencing/template" ∨ k = "fencing/timeout") :
    jobFixedAnns node pt k
      = oElse (node.annotations k) (oElse (pt.annotations k) (defaultAnnotations k)) := by
  rcases hk with h | h | h <;> subst h <;>
    simp [jobFixedAnns, fixedKeys, annCopyFrom_self, annCopyFrom_ne, oElse]

theorem jobAnns_fixed_key (node : KNode) (pt : PodTemplate) (k : String)
    (hk : k = "fencing/mode" ∨ k = "fencing/template" ∨ k = "fencing/timeout") :
    jobAnns node pt k
      = oElse (pt.template.annotations k)
          (oElse (node.annotations k) (oElse (pt.annotations k) (defaultAnnotations k))) := by
  have hne1 : k ≠ "fencing/after-hook" := by rcases hk with h | h | h <;> subst h <;> decide
  have hne2 : k ≠ "fencing/id" := by rcases hk with h | h | h <;> subst h <;> decide
  have hne3 : k ≠ "fencing/node" := by rcases hk with h | h | h <;> subst h <;> decide
  rw [jobAnns, annCopyFrom_ne _ _ _ _ hne1, annCopyFrom_ne _ _ _ _ hne1,
    jobForcedIdAnns_ne _ _ _ _ hne2, annInsert_ne _ _ _ _ hne3, annUnion_at,
    jobFixedAnns_at _ _ _ hk]

theorem jobAnns_node_key (node : KNode) (pt : PodTemplate) :
    jobAnns node pt "fencing/node" = some node.name := by
  rw [jobAnns, annCopyFrom_ne _ _ _ _ (by decide), annCopyFrom_ne _ _ _ _ (by decide),
    jobForcedIdAnns_ne _ _ _ _ (by decide), annInsert_self]

theorem jobAnns_id_key (node : KNode) (pt : PodTemplate) :
    jobAnns node pt "fencing/id"
      = oElse (node.annotations "fencing/id")
          (oElse (pt.annotations "fencing/id") (some node.name)) := by
  rw [jobAnns, annCopyFrom_ne _ _ _ _ (by decide), annCopyFrom_ne _ _ _ _ (by decide),
    jobForcedIdAnns_self]

/-- C2 counterexample: a node with readiness reason NodeStatusUnknown,
fencing/enabled true, no timeout anywhere and no persisted state gets
exactly one side effect in a single pass: the patch to state "started".
No job-creation effect occurs in that same pass, so the claim that the
pass "both patches fencing/state and creates the job" is false. -/
theorem C2_counterexample :
    Reconcile clusterC2 = ⟨[startedPatch], false⟩ :=
  rfl

/-- C2 (amended): with readiness reason NodeStatusUnknown, enabled true,
resolved timeout "0" and no persisted state, the pass only patches
fencing/state to "started"; the job named fence-nodeName is created by
the subsequent pass that runs with state "started" and no existing job. -/
theorem C2_started_then_job
    (cl cl2 : Cluster) (node node2 : KNode) (c c2 : NodeCondition) (t t2 : PodTemplate)
    (hnode : cl.node = .found node)
    (hc : GetNodeCondition node.conditions "Ready" = some c)
    (hreason : c.reason = "NodeStatusUnknown")
    (hstate : node.annotations "fencing/state" = none)
    (henabled : node.annotations "fencing/enabled" = some "true")
    (htmpl : cl.template = .found t)
    (hres : (node.annotations "fencing/timeout").getD
      ((t.annotations "fencing/timeout").getD "0") = "0")
    (hnode2 : cl2.node = .found node2)
    (hc2 : GetNodeCondition node2.conditions "Ready" = some c2)
    (hreason2 : c2.reason = "NodeStatusUnknown")
    (hstate2 : node2.annotations "fencing/state" = some "started")
    (henabled2 : node2.annotations "fencing/enabled" = some "true")
    (htmpl2 : cl2.template = .found t2)
    (hpod2 : t2.template.name = "")
    (hjob2 : cl2.job = .notFound) :
    Reconcile cl = ⟨[startedPatch], false⟩
    ∧ Reconcile cl2 = ⟨[Effect.createJob (newJobForNode cl2.ns node2 t2)], false⟩
    ∧ (newJobForNode cl2.ns node2 t2).name = "fence-" ++ node2.name := by
  refine ⟨?_, ?_, ?_⟩
  · simp [Reconcile, hnode, hc, annGetD, hstate, hreason, reconcileCore, henabled, htmpl,
      hres, show goAtoi "0" = some 0 from rfl]
  · simp [Reconcile, hnode2, hc2, annGetD, hstate2, hreason2, reconcileCore, henabled2,
      htmpl2, hjob2]
  · simp [newJobForNode, hpod2, fence_dash_append]

/-- C2 witness: the amended theorem at a concrete pair of passes. -/
theorem C2_witness :
    Reconcile clusterC2 = ⟨[startedPatch], false⟩
    ∧ Reconcile clusterC2b
        = ⟨[Effect.createJob (newJobForNode clusterC2b.ns nodeC2b emptyPodTemplate)], false⟩
    ∧ (newJobForNode clusterC2b.ns nodeC2b emptyPodTemplate).name = "fence-" ++ nodeC2b.name :=
  C2_started_then_job clusterC2 clusterC2b nodeC2 nodeC2b condNotReady condNotReady
    emptyPodTemplate emptyPodTemplate
    rfl rfl rfl rfl rfl rfl rfl rfl rfl rfl rfl rfl rfl rfl rfl

/-- C3 counterexample: a node with persisted fencing/state "started" whose
Ready condition has status True (reason KubeletReady) is NOT cleared:
the pass performs no effect, the state annotation stays "started" and the
existing job is not deleted, so "every persisted state (including
started)" is false — only "pending" and "fenced" recover. -/
theorem C3_counterexample :
    Reconcile clusterC3 = ⟨[], false⟩
    ∧ applyEffects nodeC3.annotations (Reconcile clusterC3).effects "fencing/state"
        = some "started" :=
  ⟨rfl, rfl⟩

/-- C3 (amended): for persisted state "pending" or "fenced" (not
"started"), a pass with Ready status True issues the clearing patch and
deletes the existing job: afterwards both fencing annotations are
absent. -/
theorem C3_recovery_clears_and_deletes
    (cl : Cluster) (node : KNode) (c : NodeCondition) (t : PodTemplate) (fj : Job)
    (hnode : cl.node = .found node)
    (hc : GetNodeCondition node.conditions "Ready" = some c)
    (hready : c.status = "True")
    (hstate : annGetD node.annotations "fencing/state" = "pending"
              ∨ annGetD node.annotations "fencing/state" = "fenced")
    (htmpl : cl.template = .found t)
    (hjob : cl.job = .found fj) :
    Reconcile cl = ⟨[recoveredPatch, Effect.deleteJob (newJobForNode cl.ns node t).name], false⟩
    ∧ applyEffects node.annotations (Reconcile cl).effects "fencing/state" = none
    ∧ applyEffects node.annotations (Reconcile cl).effects "fencing/timestamp" = none := by
  have h1 : Reconcile cl
      = ⟨[recoveredPatch, Effect.deleteJob (newJobForNode cl.ns node t).name], false⟩ := by
    rcases hstate with hs | hs <;>
      simp [Reconcile, hnode, hc, hready, hs, reconcileCore, htmpl, hjob]
  refine ⟨h1, ?_, ?_⟩ <;>
    simp [h1, applyEffects, applyMergePatch, recoveredPatch, annErase]

/-- C3 witness: the amended theorem at a concrete pending node that came
back Ready while a fencing job existed. -/
theorem C3_witness :
    Reconcile clusterC3w
      = ⟨[recoveredPatch,
          Effect.deleteJob (newJobForNode clusterC3w.ns nodeC3w emptyPodTemplate).name], false⟩
    ∧ applyEffects nodeC3w.annotations (Reconcile clusterC3w).effects "fencing/state" = none
    ∧ applyEffects nodeC3w.annotations (Reconcile clusterC3w).effects "fencing/timestamp" = none :=
  C3_recovery_clears_and_deletes clusterC3w nodeC3w condReadyTrue emptyPodTemplate runningJob
    rfl rfl rfl (Or.inl rfl) rfl rfl

/-- C4: whenever the Ready condition has status True while the persisted
fencing/state is "pending" or "fenced", the pass starts with the clearing
merge patch, afterwards both fencing/state and fencing/timestamp are
absent, and the rest of the pass only (possibly) deletes the stale job —
the Recovered treatment. -/
theorem C4_ready_clears_state
    (cl : Cluster) (node : KNode) (c : NodeCondition)
    (hnode : cl.node = .found node)
    (hc : GetNodeCondition node.conditions "Ready" = some c)
    (hready : c.status = "True")
    (hstate : annGetD node.annotations "fencing/state" = "pending"
              ∨ annGetD node.annotations "fencing/state" = "fenced") :
    applyEffects node.annotations (Reconcile cl).effects "fencing/state" = none
    ∧ applyEffects node.annotations (Reconcile cl).effects "fencing/timestamp" = none
    ∧ (Reconcile cl).effects.head? = some recoveredPatch
    ∧ (∀ e ∈ (Reconcile cl).effects.tail, ∃ jn, e = Effect.deleteJob jn)
    ∧ (Reconcile cl).isErr = false := by
  rcases hstate with hs | hs <;> cases htm : cl.template <;> cases hjb : cl.job <;>
    simp [Reconcile, hnode, hc, hready, hs, reconcileCore, htm, hjb, applyEffects,
      applyMergePatch, recoveredPatch, annErase]

/-- C4 witness: the theorem at a concrete pending node that became Ready. -/
theorem C4_witness :
    applyEffects nodeC3w.annotations (Reconcile clusterC3w).effects "fencing/state" = none
    ∧ applyEffects nodeC3w.annotations (Reconcile clusterC3w).effects "fencing/timestamp" = none
    ∧ (Reconcile clusterC3w).effects.head? = some recoveredPatch
    ∧ (∀ e ∈ (Reconcile clusterC3w).effects.tail, ∃ jn, e = Effect.deleteJob jn)
    ∧ (Reconcile clusterC3w).isErr = false :=
  C4_ready_clears_state clusterC3w nodeC3w condReadyTrue rfl rfl rfl (Or.inl rfl)

/-- C5: in the execution phase (state "started", job found), if the job
has neither a Complete nor a Failed condition the pass is a no-op; if it
has either one (treated identically), the pass deletes the job and then
creates a fresh job with the same deterministic name. -/
theorem C5_execution_job_cycle
    (cl : Cluster) (node : KNode) (c : NodeCondition) (t : PodTemplate) (fj : Job)
    (hnode : cl.node = .found node)
    (hc : GetNodeCondition node.conditions "Ready" = some c)
    (hreason : c.reason = "NodeStatusUnknown")
    (hstate : annGetD node.annotations "fencing/state" = "started")
    (henabled : node.annotations "fencing/enabled" = some "true")
    (htmpl : cl.template = .found t)
    (hjob : cl.job = .found fj) :
    (GetJobCondition fj.statusConditions "Complete" = none
      → GetJobCondition fj.statusConditions "Failed" = none
      → Reconcile cl = ⟨[], false⟩)
    ∧ (GetJobCondition fj.statusConditions "Complete" ≠ none
        ∨ GetJobCondition fj.statusConditions "Failed" ≠ none
      → Reconcile cl = ⟨[Effect.deleteJob (newJobForNode cl.ns node t).name,
                         Effect.createJob (newJobForNode cl.ns node t)], false⟩) := by
  have hen : annGetD node.annotations "fencing/enabled" = "true" := by
    simp [annGetD, henabled]
  constructor
  · intro hjc hjf
    simp [Reconcile, hnode, hc, hreason, hstate, reconcileCore, hen, htmpl, hjob, hjc, hjf]
  · intro hfin
    cases h1 : GetJobCondition fj.statusConditions "Complete" with
    | some v =>
      simp [Reconcile, hnode, hc, hreason, hstate, reconcileCore, hen, htmpl, hjob, h1]
    | none =>
      cases h2 : GetJobCondition fj.statusConditions "Failed" with
      | some v =>
        simp [Reconcile, hnode, hc, hreason, hstate, reconcileCore, hen, htmpl, hjob, h1, h2]
      | none =>
        cases hfin with
        | inl h => exact absurd h1 h
        | inr h => exact absurd h2 h

/-- C5 witness: both halves at a concrete started node, once with a still
running job and once with a Complete job. -/
theorem C5_witness :
    Reconcile clusterC5run = ⟨[], false⟩
    ∧ Reconcile clusterC5done
        = ⟨[Effect.deleteJob (newJobForNode clusterC5done.ns nodeC5 emptyPodTemplate).name,
            Effect.createJob (newJobForNode clusterC5done.ns nodeC5 emptyPodTemplate)], false⟩ :=
  ⟨(C5_execution_job_cycle clusterC5run nodeC5 condNotReady emptyPodTemplate runningJob
      rfl rfl rfl rfl rfl rfl rfl).1 rfl rfl,
   (C5_execution_job_cycle clusterC5done nodeC5 condNotReady emptyPodTemplate doneJob
      rfl rfl rfl rfl rfl rfl rfl).2 (Or.inl (by decide))⟩

/-- C6: with a positive resolved timeout T, (a) the first pass (no state,
no timestamp) patches state "pending" with timestamp now and arms the
timer, creating no job; (b) while T - (now - timestamp) > 0 the pass only
re-arms the timer, with no patch and no job; (c) once
T - (now - timestamp) ≤ 0 the pass patches state "started" and clears
the timestamp. -/
theorem C6_pending_timeout_flow
    (cl : Cluster) (node : KNode) (c : NodeCondition) (t : PodTemplate) (tStr : String) (T : Int)
    (hnode : cl.node = .found node)
    (hc : GetNodeCondition node.conditions "Ready" = some c)
    (hreason : c.reason = "NodeStatusUnknown")
    (hstatus : c.status ≠ "True")
    (henabled : node.annotations "fencing/enabled" = some "true")
    (htmpl : cl.template = .found t)
    (htStr : (node.annotations "fencing/timeout").getD
      ((t.annotations "fencing/timeout").getD "0") = tStr)
    (hT : goAtoi tStr = some T)
    (hpos : 0 < T) :
    (node.annotations "fencing/state" = none → node.annotations "fencing/timestamp" = none →
       Reconcile cl = ⟨[pendingPatch cl.now, Effect.armTimer T], false⟩)
    ∧ (∀ tsStr ts, node.annotations "fencing/state" = some "pending" →
         node.annotations "fencing/timestamp" = some tsStr → goAtoi tsStr = some ts →
         0 < T - (cl.now - ts) →
         Reconcile cl = ⟨[Effect.armTimer (T - (cl.now - ts))], false⟩)
    ∧ (∀ tsStr ts, node.annotations "fencing/state" = some "pending" →
         node.annotations "fencing/timestamp" = some tsStr → goAtoi tsStr = some ts →
         T - (cl.now - ts) ≤ 0 →
         Reconcile cl = ⟨[startedPatch], false⟩) := by
  have hen : annGetD node.annotations "fencing/enabled" = "true" := by
    simp [annGetD, henabled]
  refine ⟨?_, ?_, ?_⟩
  · intro hsa hta
    have hs0 : annGetD node.annotations "fencing/state" = "" := by simp [annGetD, hsa]
    have ht0 : annGetD node.annotations "fencing/timestamp" = "" := by simp [annGetD, hta]
    simp [Reconcile, hnode, hc, hreason, hs0, reconcileCore, hen, htmpl, htStr, hT, hpos,
      ht0, show goParseIntD "" = 0 from rfl]
  · intro tsStr ts hsp htp hts hgt
    have hs0 : annGetD node.annotations "fencing/state" = "pending" := by simp [annGetD, hsp]
    have ht0 : annGetD node.annotations "fencing/timestamp" = tsStr := by simp [annGetD, htp]
    have hparse : goParseIntD tsStr = ts := by simp [goParseIntD, hts]
    simp [Reconcile, hnode, hc, hreason, hstatus, hs0, reconcileCore, hen, htmpl, htStr, hT,
      hpos, ht0, hparse, hgt, Int.sub_pos.mp hgt]
  · intro tsStr ts hsp htp hts hle
    have hs0 : annGetD node.annotations "fencing/state" = "pending" := by simp [annGetD, hsp]
    have ht0 : annGetD node.annotations "fencing/timestamp" = tsStr := by simp [annGetD, htp]
    have hparse : goParseIntD tsStr = ts := by simp [goParseIntD, hts]
    have h1 : T ≤ cl.now - ts := by omega
    have h2 : ¬ (cl.now - ts < T) := not_lt.mpr h1
    simp [Reconcile, hnode, hc, hreason, hstatus, hs0, reconcileCore, hen, htmpl, htStr, hT,
      hpos, ht0, hparse, h2, not_lt.mpr hle]

/-- C6 witness: the three phases at timeout 60 — first sighting at
now=1000, a re-check at now=1030 (30 seconds remaining), and the
expiry pass at now=1060. -/
theorem C6_witness :
    Reconcile clusterC6a = ⟨[pendingPatch 1000, Effect.armTimer 60], false⟩
    ∧ Reconcile clusterC6b = ⟨[Effect.armTimer 30], false⟩
    ∧ Reconcile clusterC6c = ⟨[startedPatch], false⟩ :=
  ⟨(C6_pending_timeout_flow clusterC6a nodeC6a condNotReady emptyPodTemplate "60" 60
      rfl rfl rfl (by decide) rfl rfl rfl rfl (by decide)).1 rfl rfl,
   (C6_pending_timeout_flow clusterC6b nodeC6b condNotReady emptyPodTemplate "60" 60
      rfl rfl rfl (by decide) rfl rfl rfl rfl (by decide)).2.1 "1000" 1000 rfl rfl rfl (by decide),
   (C6_pending_timeout_flow clusterC6c nodeC6b condNotReady emptyPodTemplate "60" 60
      rfl rfl rfl (by decide) rfl rfl rfl rfl (by decide)).2.2 "1000" 1000 rfl rfl rfl (by decide)⟩

/-- C7: in the built job spec, each fixed key (fencing/mode,
fencing/template, fencing/timeout) resolves as default literal,
overridden by the template's annotation, overridden by the node's,
overridden last by the template's embedded pod spec annotations; then
fencing/node is forced to the node name and fencing/id to the node's
fencing/id annotation, else the template's, else the node name — the
forced keys independent of the pod spec annotations. -/
theorem C7_annotation_precedence (ns : String) (node : KNode) (pt : PodTemplate) :
    ((newJobForNode ns node pt).annotations "fencing/mode"
      = oElse (pt.template.annotations "fencing/mode")
          (oElse (node.annotations "fencing/mode")
            (oElse (pt.annotations "fencing/mode") (some "flush"))))
    ∧ ((newJobForNode ns node pt).annotations "fencing/template"
      = oElse (pt.template.annotations "fencing/template")
          (oElse (node.annotations "fencing/template")
            (oElse (pt.annotations "fencing/template") (some "fencing"))))
    ∧ ((newJobForNode ns node pt).annotations "fencing/timeout"
      = oElse (pt.template.annotations "fencing/timeout")
          (oElse (node.annotations "fencing/timeout")
            (oElse (pt.annotations "fencing/timeout") (some "0"))))
    ∧ (newJobForNode ns node pt).annotations "fencing/node" = some node.name
    ∧ ((newJobForNode ns node pt).annotations "fencing/id"
      = oElse (node.annotations "fencing/id")
          (oElse (pt.annotations "fencing/id") (some node.name))) := by
  have hann : (newJobForNode ns node pt).annotations = jobAnns node pt := rfl
  refine ⟨?_, ?_, ?_, ?_, ?_⟩ <;> rw [hann]
  · rw [jobAnns_fixed_key node pt _ (Or.inl rfl)]
    rfl
  · rw [jobAnns_fixed_key node pt _ (Or.inr (Or.inl rfl))]
    rfl
  · rw [jobAnns_fixed_key node pt _ (Or.inr (Or.inr rfl))]
    rfl
  · rw [jobAnns_node_key]
  · rw [jobAnns_id_key]

/-- C8: the fencing/after-hook value on the built job is the node's value
overwritten by the template's whenever the template defines one — so when
both carry it, the job carries the template's value. -/
theorem C8_after_hook_template_wins (ns : String) (node : KNode) (pt : PodTemplate)
    (a b : String)
    (_hn : node.annotations "fencing/after-hook" = some a)
    (ht : pt.annotations "fencing/after-hook" = some b) :
    (newJobForNode ns node pt).annotations "fencing/after-hook" = some b := by
  have hann : (newJobForNode ns node pt).annotations = jobAnns node pt := rfl
  rw [hann, jobAnns, annCopyFrom_self, ht]
  rfl

/-- C8 witness: node carries nodeHook, template carries tmplHook; the job
carries tmplHook. -/
theorem C8_witness :
    (newJobForNode "fencing" nodeC8 templateC8).annotations "fencing/after-hook"
      = some "tmplHook" :=
  C8_after_hook_template_wins "fencing" nodeC8 templateC8 "nodeHook" "tmplHook" rfl rfl

/-- C9: when the resolved fencing/timeout string does not parse as an
integer, the pass stops with no effects and no error (so no retry), for
any persisted state that reaches the arming phase. -/
theorem C9_unparsable_timeout_noop
    (cl : Cluster) (node : KNode) (c : NodeCondition) (t : PodTemplate) (s tStr : String)
    (hnode : cl.node = .found node)
    (hc : GetNodeCondition node.conditions "Ready" = some c)
    (hreason : c.reason = "NodeStatusUnknown")
    (hs : annGetD node.annotations "fencing/state" = s)
    (hs1 : s ≠ "fenced") (hs2 : s ≠ "recovered") (hs3 : s ≠ "started")
    (hnorec : ¬ (c.status = "True" ∧ (s = "pending" ∨ s = "fenced")))
    (henabled : node.annotations "fencing/enabled" = some "true")
    (htmpl : cl.template = .found t)
    (htStr : (node.annotations "fencing/timeout").getD
      ((t.annotations "fencing/timeout").getD "0") = tStr)
    (hbad : goAtoi tStr = none) :
    Reconcile cl = ⟨[], false⟩ := by
  have hen : annGetD node.annotations "fencing/enabled" = "true" := by
    simp [annGetD, henabled]
  have hnorec2 : ¬ (c.status = "True" ∧ s = "pending") :=
    fun h => hnorec ⟨h.1, Or.inl h.2⟩
  simp [Reconcile, hnode, hc, hreason, hs, hnorec, hnorec2, hs1, hs2, hs3, reconcileCore,
    hen, htmpl, htStr, hbad]

/-- C9 witness: a node annotated fencing/timeout "sixty" is a complete
no-op with a nil error. -/
theorem C9_witness : Reconcile clusterC9 = ⟨[], false⟩ :=
  C9_unparsable_timeout_noop clusterC9 nodeC9 condNotReady emptyPodTemplate "" "sixty"
    rfl rfl rfl rfl (by decide) (by decide) (by decide) (by decide) rfl rfl rfl rfl

/-- C10: a non-not-found error on the pod-template fetch does not stop the
pass and returns no error: the pass proceeds with the zero-value template,
so (in the execution phase with no existing job) it creates the job built
from the zero-value template, whose name prefix is "fence" and whose
annotations fall back to the defaults. -/
theorem C10_template_error_proceeds
    (cl : Cluster) (node : KNode) (c : NodeCondition)
    (hnode : cl.node = .found node)
    (hc : GetNodeCondition node.conditions "Ready" = some c)
    (hreason : c.reason = "NodeStatusUnknown")
    (hstate : annGetD node.annotations "fencing/state" = "started")
    (henabled : node.annotations "fencing/enabled" = some "true")
    (htmpl : cl.template = .otherError)
    (hjob : cl.job = .notFound) :
    Reconcile cl = ⟨[Effect.createJob (newJobForNode cl.ns node emptyPodTemplate)], false⟩
    ∧ (newJobForNode cl.ns node emptyPodTemplate).name = "fence-" ++ node.name
    ∧ (node.annotations "fencing/mode" = none →
        (newJobForNode cl.ns node emptyPodTemplate).annotations "fencing/mode"
          = some "flush") := by
  have hen : annGetD node.annotations "fencing/enabled" = "true" := by
    simp [annGetD, henabled]
  refine ⟨?_, ?_, ?_⟩
  · simp [Reconcile, hnode, hc, hreason, hstate, reconcileCore, hen, htmpl, hjob]
  · simp [newJobForNode, emptyPodTemplate, fence_dash_append]
  · intro hm
    have hann : (newJobForNode cl.ns node emptyPodTemplate).annotations
        = jobAnns node emptyPodTemplate := rfl
    rw [hann, jobAnns_fixed_key node emptyPodTemplate _ (Or.inl rfl)]
    simp [emptyPodTemplate, annEmpty, oElse, hm,
      show defaultAnnotations "fencing/mode" = some "flush" from rfl]

/-- C10 witness: the theorem at a concrete started node with a template
fetch failing with a non-not-found error. -/
theorem C10_witness :
    Reconcile clusterC10
      = ⟨[Effect.createJob (newJobForNode clusterC10.ns nodeC10 emptyPodTemplate)], false⟩
    ∧ (newJobForNode clusterC10.ns nodeC10 emptyPodTemplate).name = "fence-" ++ nodeC10.name
    ∧ (nodeC10.annotations "fencing/mode" = none →
        (newJobForNode clusterC10.ns nodeC10 emptyPodTemplate).annotations "fencing/mode"
          = some "flush") :=
  C10_template_error_proceeds clusterC10 nodeC10 condNotReady rfl rfl rfl rfl rfl rfl rfl
